import Mathlib

/-!
Verification of the Phx_tripplanner route-and-weather rendering pipeline
(`src/Tripplanner.py`) against its natural-language specification.

The Python source is shallowly embedded below: the static tables
(`LOCATIONS`, the four route segments), the weather client `get_weather`
(request construction, response interpretation, WMO-code classification,
and the try/except degradation paths), the route composer `create_map`
(segment selection, marker styling, coordinate resolution with fail-fast
dict lookup), the per-day date arithmetic (`day_1_date` .. `day_4_date`),
and the per-day itinerary blocks. Python exceptions inside the weather
try-block are modelled with `Except`; a dict/list access that would raise
is an `Except.error`. Numeric JSON payload values are modelled as `Int`
(the scenarios of the spec use integral stub values); coordinates are exact
rationals.
-/

namespace Tripplanner

/-! ## Calendar dates

Python `datetime.date` values: a proleptic-Gregorian calendar date.
`date + timedelta(days=k)` is exact calendar day addition, embedded as
`addDays` (k successive day increments with month/year rollover and the
Gregorian leap rule). -/

structure Date where
  year : Nat
  month : Nat
  day : Nat
deriving DecidableEq, Repr

def isLeap (y : Nat) : Bool :=
  (y % 4 == 0 && y % 100 != 0) || y % 400 == 0

def daysInMonth (y m : Nat) : Nat :=
  if m = 2 then (if isLeap y then 29 else 28)
  else if m = 4 ∨ m = 6 ∨ m = 9 ∨ m = 11 then 30
  else 31

def nextDay (d : Date) : Date :=
  if d.day < daysInMonth d.year d.month then ⟨d.year, d.month, d.day + 1⟩
  else if d.month < 12 then ⟨d.year, d.month + 1, 1⟩
  else ⟨d.year + 1, 1, 1⟩

def addDays : Date → Nat → Date
  | d, 0 => d
  | d, k + 1 => addDays (nextDay d) k

def Date.Valid (d : Date) : Prop :=
  1 ≤ d.year ∧ 1 ≤ d.month ∧ d.month ≤ 12 ∧ 1 ≤ d.day ∧ d.day ≤ daysInMonth d.year d.month

instance (d : Date) : Decidable d.Valid := by
  unfold Date.Valid; infer_instance

/-- Zero-pad a number to two digits (`strftime` field semantics). -/
def pad2 (n : Nat) : String :=
  if n < 10 then "0" ++ toString n else toString n

/-- Zero-pad a year to four digits (`strftime %Y`). -/
def pad4 (n : Nat) : String :=
  if n < 10 then "000" ++ toString n
  else if n < 100 then "00" ++ toString n
  else if n < 1000 then "0" ++ toString n
  else toString n

/-- Python `date.strftime` with format `%Y-%m-%d`: ISO rendering of the date. -/
def strftimeYMD (d : Date) : String :=
  pad4 d.year ++ "-" ++ pad2 d.month ++ "-" ++ pad2 d.day

def monthAbbr (m : Nat) : String :=
  match m with
  | 1 => "Jan" | 2 => "Feb" | 3 => "Mar" | 4 => "Apr"
  | 5 => "May" | 6 => "Jun" | 7 => "Jul" | 8 => "Aug"
  | 9 => "Sep" | 10 => "Oct" | 11 => "Nov" | 12 => "Dec"
  | _ => ""

/-- Python `date.strftime` with format `%b %d`, used in the expander titles. -/
def strftimeBD (d : Date) : String :=
  monthAbbr d.month ++ " " ++ pad2 d.day

/-! ## Weather client (`get_weather`, Tripplanner.py lines 87-130) -/

/-- The `"daily"` JSON object of an Open-Meteo response; each metric field
may be absent (a Python `KeyError` on access) and its array may be empty
(an `IndexError` on `[0]`). -/
structure DailyData where
  temperature_2m_max : Option (List Int)
  temperature_2m_min : Option (List Int)
  weathercode : Option (List Int)
deriving DecidableEq, Repr

/-- A parsed weather response body: the top-level `"daily"` key may be absent. -/
structure WeatherData where
  daily : Option DailyData
deriving DecidableEq, Repr

/-- Outcome of `requests.get(url, params).json()`: either some stage of the
request/parse raised (network error, timeout, malformed body, ...) or a
parsed JSON object was produced. -/
inductive Response where
  | failure
  | success (data : WeatherData)
deriving DecidableEq, Repr

/-- Query parameters built by `get_weather` (lines 99-107). -/
structure RequestParams where
  latitude : Rat
  longitude : Rat
  daily : List String
  temperature_unit : String
  timezone : String
  start_date : String
  end_date : String
deriving DecidableEq, Repr

/-- The HTTP request issued by `get_weather` (line 109: `requests.get`). -/
structure Request where
  method : String
  url : String
  params : RequestParams
deriving DecidableEq, Repr

/-- Request construction in the body of `get_weather` (lines 93-109). -/
def buildRequest (lat lon : Rat) (date : Date) : Request :=
  { method := "GET"
    url := "https://api.open-meteo.com/v1/forecast"
    params :=
      { latitude := lat
        longitude := lon
        daily := ["temperature_2m_max", "temperature_2m_min", "weathercode"]
        temperature_unit := "fahrenheit"
        timezone := "auto"
        start_date := strftimeYMD date
        end_date := strftimeYMD date } }

/-- Python dict subscript: `KeyError` when the key is absent. -/
def pyGet {α : Type} : Option α → Except Unit α
  | none => Except.error ()
  | some a => Except.ok a

/-- Python list subscript `[0]`: `IndexError` on an empty list. -/
def pyIndex0 {α : Type} (l : List α) : Except Unit α :=
  match l with
  | [] => Except.error ()
  | a :: _ => Except.ok a

/-- WMO-code classification (lines 117-124): returns `(condition, icon)`.
The initial assignment `condition, icon = "Sunny", "☀️"` is the fallthrough
of the `if`/`elif` chain. -/
def classify (code : Int) : String × String :=
  if code ∈ ([1, 2, 3] : List Int) then ("Partly Cloudy", "qw⛅")
  else if code ∈ ([45, 48] : List Int) then ("Foggy", "🌫️")
  else if code ∈ ([51, 53, 55, 61, 63, 65] : List Int) then ("Rainy", "🌧️")
  else if code ∈ ([71, 73, 75] : List Int) then ("Snow", "❄️")
  else if code ≥ 95 then ("Stormy", "⚡")
  else ("Sunny", "☀️")

/-- The success f-string of line 126:
`f"{icon} {condition} | H: {t_max}°F L: {t_min}°F"`. -/
def formatWeather (icon condition : String) (t_max t_min : Int) : String :=
  icon ++ " " ++ condition ++ " | H: " ++ toString t_max ++ "°F L: " ++
    toString t_min ++ "°F"

/-- The `try` block of `get_weather` (lines 92-128); `Except.error` is a
Python exception escaping the block. -/
def getWeatherTry (lat lon : Rat) (date : Date) (resp : Response) :
    Except Unit String :=
  match resp with
  | .failure => Except.error ()
  | .success data =>
    match data.daily with
    | none => Except.ok "Weather unavailable (Date out of range)"
    | some daily => do
      let t_max ← pyIndex0 (← pyGet daily.temperature_2m_max)
      let t_min ← pyIndex0 (← pyGet daily.temperature_2m_min)
      let code ← pyIndex0 (← pyGet daily.weathercode)
      let ci := classify code
      Except.ok (formatWeather ci.2 ci.1 t_max t_min)

/-- `get_weather(lat, lon, date)` (lines 87-130), parameterised by the
outcome `resp` of the network call: the `try` body with the
`except Exception` handler of line 129 wrapped around it. -/
def get_weather (lat lon : Rat) (date : Date) (resp : Response) : String :=
  match getWeatherTry lat lon date resp with
  | .ok s => s
  | .error _ => "Weather service offline"

/-! ## Location registry (`LOCATIONS`, lines 47-65) -/

/-- One `LOCATIONS` entry: coordinates and a category tag (`"type"`). -/
structure Location where
  coords : Rat × Rat
  type : String
deriving DecidableEq, Repr

/-- The static `LOCATIONS` dict, in source order. -/
def LOCATIONS : List (String × Location) :=
  [("Phoenix Airport", ⟨(33.4352, -112.0101), "start"⟩),
   ("Phoenix Downtown", ⟨(33.4484, -112.0740), "stop"⟩),
   ("Route 93", ⟨(34.7000, -113.3000), "waypoint"⟩),
   ("Henderson", ⟨(36.0395, -114.9817), "stop"⟩),
   ("Hoover Dam", ⟨(36.0160, -114.7377), "highlight"⟩),
   ("Bypass Bridge", ⟨(36.0145, -114.7390), "waypoint"⟩),
   ("Arizona Scenic Overlook", ⟨(36.0095, -114.7350), "waypoint"⟩),
   ("Joshua Tree Forest", ⟨(35.8500, -114.1500), "highlight"⟩),
   ("Las Vegas Strip", ⟨(36.1147, -115.1728), "stop"⟩),
   ("Grand Canyon West", ⟨(35.9897, -113.8214), "highlight"⟩),
   ("Grand Canyon South", ⟨(36.0544, -112.1401), "highlight"⟩),
   ("Flagstaff", ⟨(35.1983, -111.6513), "stop"⟩),
   ("Sedona", ⟨(34.8697, -111.7610), "stop"⟩),
   ("Cathedral Rock", ⟨(34.8189, -111.7925), "highlight"⟩),
   ("Chapel of Holy Cross", ⟨(34.8322, -111.7663), "highlight"⟩),
   ("Bell Rock", ⟨(34.8016, -111.7613), "highlight"⟩),
   ("St. Thomas Orthodox Church", ⟨(33.4660, -112.0310), "highlight"⟩)]

/-- Python dict lookup `LOCATIONS[name]` as a partial map. -/
def lookupLoc (name : String) : Option Location :=
  (LOCATIONS.lookup name)

/-! ## Route composer (`create_map`, lines 132-206) -/

/-- One route dict appended to `routes` (name, color, ordered stop names). -/
structure RouteSegment where
  name : String
  color : String
  points : List String
deriving DecidableEq, Repr

def day1Segment : RouteSegment :=
  { name := "Day 1: PHX to Vegas"
    color := "#E91E63"
    points := ["Phoenix Airport", "Route 93", "Henderson", "Hoover Dam",
               "Hoover Bridge", "Las Vegas Strip"] }

def day2Segment : RouteSegment :=
  { name := "Day 2: Vegas to Flagstaff"
    color := "#9C27B0"
    points := ["Las Vegas Strip", "Hoover Dam", "Bypass Bridge",
               "Arizona Scenic Overlook", "Joshua Tree Forest",
               "Grand Canyon West", "Grand Canyon South", "Flagstaff"] }

def day3Segment : RouteSegment :=
  { name := "Day 3: Sedona to Phoenix"
    color := "#FF9800"
    points := ["Flagstaff", "Sedona", "Cathedral Rock", "Chapel of Holy Cross",
               "Bell Rock", "Phoenix Downtown"] }

def day4Segment : RouteSegment :=
  { name := "Day 4: Phoenix & Departure"
    color := "#4CAF50"
    points := ["Phoenix Downtown", "St. Thomas Orthodox Church",
               "Phoenix Airport"] }

/-- The `routes` list built by the four `if show_all or day_selection == ...`
blocks of `create_map` (lines 142-171). -/
def routesFor (day_selection : String) (show_all : Bool) : List RouteSegment :=
  (if show_all || day_selection == "Day 1" then [day1Segment] else []) ++
  (if show_all || day_selection == "Day 2" then [day2Segment] else []) ++
  (if show_all || day_selection == "Day 3" then [day3Segment] else []) ++
  (if show_all || day_selection == "Day 4" then [day4Segment] else [])

/-- Marker style from the `"type"` tag of a location (lines 182-188): the defaults
`gray`/`info-sign` are overridden by the `if`/`elif` chain. -/
def markerStyle (t : String) : String × String :=
  if t == "start" then ("green", "plane")
  else if t == "stop" then ("blue", "bed")
  else if t == "highlight" then ("red", "camera")
  else ("gray", "info-sign")

/-- A `folium.Marker` added to the map (lines 191-196). -/
structure Marker where
  coords : Rat × Rat
  popup : String
  tooltip : String
  color : String
  icon : String
deriving DecidableEq, Repr

/-- A `folium.PolyLine` added to the map (lines 198-204). -/
structure PolyLine where
  coords : List (Rat × Rat)
  color : String
  tooltip : String
deriving DecidableEq, Repr

/-- The drawing result of `create_map`: markers and polylines in the order
they are added. -/
structure MapResult where
  markers : List Marker
  lines : List PolyLine
deriving DecidableEq, Repr

/-- The inner loop over `route["points"]` (lines 176-196): resolve each stop
through `LOCATIONS` — an unregistered name raises `KeyError point_name` —
and emit its coordinates and marker. -/
def drawPoints : List String → Except String (List (Rat × Rat) × List Marker)
  | [] => Except.ok ([], [])
  | point_name :: rest =>
    match lookupLoc point_name with
    | none => Except.error point_name
    | some loc_data => do
      let (coords, markers) ← drawPoints rest
      let style := markerStyle loc_data.type
      Except.ok (loc_data.coords :: coords,
        { coords := loc_data.coords
          popup := point_name
          tooltip := point_name
          color := style.1
          icon := style.2 } :: markers)

/-- One iteration of the outer `for route in routes` loop (lines 175-204). -/
def drawRoute (route : RouteSegment) : Except String (List Marker × PolyLine) := do
  let (line_coords, markers) ← drawPoints route.points
  Except.ok (markers,
    { coords := line_coords, color := route.color, tooltip := route.name })

/-- `create_map(day_selection, show_all)` (lines 132-206): an unresolved stop
name is a `KeyError` (modelled as `Except.error` carrying the offending
name); on success, all markers and polylines in drawing order. -/
def create_map (day_selection : String) (show_all : Bool) :
    Except String MapResult := do
  let drawn ← (routesFor day_selection show_all).mapM drawRoute
  Except.ok { markers := (drawn.map Prod.fst).flatten
              lines := drawn.map Prod.snd }

/-! ## Itinerary day dates (lines 234-237) and day blocks (lines 249-417) -/

def day_1_date (start_date : Date) : Date := start_date
def day_2_date (start_date : Date) : Date := addDays start_date 1
def day_3_date (start_date : Date) : Date := addDays start_date 2
def day_4_date (start_date : Date) : Date := addDays start_date 3

/-- The resolved calendar date of day `i` (0-based `Fin 4` index for day
`i+1`), dispatching to the four source definitions. -/
def dayDate (start : Date) : Fin 4 → Date
  | 0 => day_1_date start
  | 1 => day_2_date start
  | 2 => day_3_date start
  | 3 => day_4_date start

def GITHUB_BASE_URL : String :=
  "https://raw.githubusercontent.com/rejipmathew27/Phx_tripplanner/main/images"

/-- The `IMAGES` dict (lines 71-81). -/
def IMAGES : List (String × String) :=
  [("PHX", GITHUB_BASE_URL ++ "/phoenix_airport.jpg"),
   ("Hoover Dam", GITHUB_BASE_URL ++ "/hoover_dam.jpg"),
   ("Hoover Bridge", GITHUB_BASE_URL ++ "/hoover_bridge.jpg"),
   ("Vegas", GITHUB_BASE_URL ++ "/las_vegas_strip.jpg"),
   ("GC West", GITHUB_BASE_URL ++ "/grand_canyon_west.jpg"),
   ("GC South", GITHUB_BASE_URL ++ "/grand_canyon_south.jpg"),
   ("Cathedral Rock", GITHUB_BASE_URL ++ "/cathedral_rock.jpg"),
   ("Chapel", GITHUB_BASE_URL ++ "/chapel_holy_cross.jpg"),
   ("Church", GITHUB_BASE_URL ++ "/st_thomas_orthodox_church.jpg")]

def imageURL (key : String) : String :=
  ((IMAGES.lookup key).getD "")

/-- The static markdown narrative of the Day 1 expander, verbatim. -/
def day1Narrative : String :=
"            <div class=\"itinerary-card\">
                <h4>🛫 Morning: Arrival & Drive</h4>
                <ul>
                    <li>Start at <b>Phoenix Sky Harbor (PHX)</b>.</li>
                    <li>Take Route 93 North towards Las Vegas (The Joshua Tree Highway).</li>
                </ul>
            </div>
            
            <div class=\"itinerary-card\">
                <h4>🚧 Mid-Day: Engineering Marvels</h4>
                <ul>
                    <li>Stop at <b>Henderson</b> for lunch.</li>
                    <li><b>Option A:</b> Visit <b>Hoover Dam</b> directly.</li>
                    <li><b>Option B:</b> Take the Bypass Bridge for the view.</li>
                </ul>
            </div>
            
            <div class=\"itinerary-card\">
                <h4>🎰 Evening: The Strip & Trams</h4>
                <ul>
                    <li>Start walking from <b>3745 Las Vegas Blvd S</b>.</li>
                    <li>Ride the <b>Mandalay Bay Tram</b>.</li>
                    <li>Take the <b>Aria Express Tram</b>.</li>
                    <li>Dinner and Bellagio Fountains.</li>
                </ul>
            </div>
            "

/-- The static markdown narrative of the Day 2 expander, verbatim. -/
def day2Narrative : String :=
"            <div class=\"itinerary-card\">
                <h4>🚗 Morning: Vegas to West Rim (The Scenic Drive)</h4>
                <ul>
                    <li><b>1. Hoover Dam & Bypass Bridge</b> (40 min from Vegas):
                        <ul>
                            <li>Walk across the dam or the <b>Mike O’Callaghan–Pat Tillman Memorial Bridge</b> for breathtaking views.</li>
                            <li>Allow 30–60 mins to explore.</li>
                        </ul>
                    </li>
                    <li><b>2. Arizona Welcome Center / Scenic Views</b>:
                        <ul>
                            <li>Just across the bridge, pull over at the <b>Arizona Scenic Overlook</b> for photos of the Colorado River.</li>
                        </ul>
                    </li>
                    <li><b>3. Joshua Tree Forest Parkway</b>:
                        <ul>
                            <li>Diamond Bar Road takes you through a unique high-desert <b>Joshua tree forest</b>.</li>
                            <li>Pull over safely for photos of these twisted trees.</li>
                        </ul>
                    </li>
                    <li>Arrive at <b>Grand Canyon West</b> (Skywalk).</li>
                </ul>
            </div>
            
            <div class=\"itinerary-card\">
                <h4>🌲 Afternoon: South Rim</h4>
                <ul>
                    <li>Long drive East to <b>Grand Canyon South Rim</b>.</li>
                    <li>Visit Mather Point and Yavapai Geology Museum.</li>
                    <li>Sunset at Hopi Point.</li>
                </ul>
            </div>
            
            <div class=\"itinerary-card\">
                <h4>🛌 Evening: Flagstaff</h4>
                <ul>
                    <li>Drive South to <b>Flagstaff, AZ</b>.</li>
                    <li>Dinner in historic downtown.</li>
                </ul>
            </div>
            "

/-- The static markdown narrative of the Day 3 expander, verbatim. -/
def day3Narrative : String :=
"            <div class=\"itinerary-card\">
                <h4>⛰️ Morning: The Vortexes</h4>
                <ul>
                    <li>Drive Hwy 89A (Scenic Switchbacks).</li>
                    <li>Hike or view <b>Cathedral Rock</b>.</li>
                    <li>Visit <b>Bell Rock</b>.</li>
                </ul>
            </div>
            
            <div class=\"itinerary-card\">
                <h4>⛪ Afternoon: Architecture & Views</h4>
                <ul>
                    <li>Visit <b>Chapel of the Holy Cross</b>.</li>
                    <li>Lunch at Tlaquepaque Arts & Shopping Village.</li>
                </ul>
            </div>
            
            <div class=\"itinerary-card\">
                <h4>🏙️ Evening: Drive to Phoenix</h4>
                <ul>
                    <li>Drive South on I-17 to <b>Phoenix</b>.</li>
                    <li>Check into hotel.</li>
                </ul>
            </div>
            "

/-- The static markdown narrative of the Day 4 expander, verbatim. -/
def day4Narrative : String :=
"            <div class=\"itinerary-card\">
                <h4>☕ Morning: Phoenix</h4>
                <ul>
                    <li>Wake up in Phoenix.</li>
                    <li>Breakfast in the city.</li>
                </ul>
            </div>
            
            <div class=\"itinerary-card\">
                <h4>⛪ Mid-Day: St. Thomas Orthodox Church</h4>
                <ul>
                    <li>Head to <b>2317 E Yale St, Phoenix, AZ 85006</b>.</li>
                    <li>Visit St. Thomas Orthodox Church.</li>
                </ul>
            </div>

            <div class=\"itinerary-card\">
                <h4>🛫 Afternoon: Departure</h4>
                <ul>
                    <li>Short drive to <b>Phoenix Sky Harbor (PHX)</b>.</li>
                    <li>Return Rental Car & Fly Out.</li>
                </ul>
            </div>
            "

/-- Weather probe coordinates per day (lines 251, 293, 347, 385). -/
def dayCoords : Fin 4 → Rat × Rat
  | 0 => (36.1147, -115.1728)
  | 1 => (36.0544, -112.1401)
  | 2 => (34.8697, -111.7610)
  | 3 => (33.4484, -112.0740)

/-- The location label in the weather forecast markdown line of each day. -/
def dayLabel : Fin 4 → String
  | 0 => "Las Vegas"
  | 1 => "Grand Canyon"
  | 2 => "Sedona"
  | 3 => "Phoenix"

/-- The fixed part of each day expander title, up to the opening paren of
the date. -/
def dayTitleLead : Fin 4 → String
  | 0 => "Day 1: Phoenix to Las Vegas ("
  | 1 => "Day 2: The Grand Loop ("
  | 2 => "Day 3: Sedona & Return to Phoenix ("
  | 3 => "Day 4: Church & Departure ("

def dayNarrative : Fin 4 → String
  | 0 => day1Narrative
  | 1 => day2Narrative
  | 2 => day3Narrative
  | 3 => day4Narrative

/-- The `st.image` calls of each day block: (url, caption) in order. -/
def dayImages : Fin 4 → List (String × String)
  | 0 => [(imageURL "PHX", "Phoenix Sky Harbor"),
          (imageURL "Hoover Dam", "Hoover Dam"),
          (imageURL "Hoover Bridge", "Hoover Bridge"),
          (imageURL "Vegas", "Las Vegas Strip")]
  | 1 => [(imageURL "GC West", "Skywalk at West Rim"),
          (imageURL "GC South", "South Rim Views")]
  | 2 => [(imageURL "Cathedral Rock", "Cathedral Rock"),
          (imageURL "Chapel", "Chapel of the Holy Cross")]
  | 3 => [(imageURL "Church", "St. Thomas Orthodox Church"),
          (imageURL "PHX", "Phoenix Sky Harbor")]

/-- Everything the rendering layer receives for one day. -/
structure DayBlock where
  title : String
  weatherLine : String
  narrative : String
  images : List (String × String)
deriving DecidableEq, Repr

/-- The rendered block of day `i` given the weather display string obtained
for that day: expander title with the resolved date, the
`**Weather Forecast (...):** \x60...\x60` markdown line, the static
narrative, and the image column. -/
def renderDayBlock (i : Fin 4) (start : Date) (weather : String) : DayBlock :=
  { title := dayTitleLead i ++ strftimeBD (dayDate start i) ++ ")"
    weatherLine := "**Weather Forecast (" ++ dayLabel i ++ "):** \x60" ++
      weather ++ "\x60"
    narrative := dayNarrative i
    images := dayImages i }

/-- The weather display string of day `i`, from its own probe coordinates, its
own resolved date and its own network response. -/
def dayWeather (start : Date) (resp : Fin 4 → Response) (i : Fin 4) : String :=
  get_weather (dayCoords i).1 (dayCoords i).2 (dayDate start i) (resp i)

/-- The block of day `i` in Overview mode, where `resp` assigns to the fetch
of each day its network outcome. -/
def overviewBlock (start : Date) (resp : Fin 4 → Response) (i : Fin 4) :
    DayBlock :=
  renderDayBlock i start (dayWeather start resp i)

/-- Overview mode renders all four day blocks in order. -/
def renderOverview (start : Date) (resp : Fin 4 → Response) : List DayBlock :=
  (List.finRange 4).map (overviewBlock start resp)

/-! ## Specification-side definitions (for refinement comparisons) -/

/-- The classification table of spec §4.2, condition column, first match
wins: 1,2,3 → Partly Cloudy; 45,48 → Foggy; 51,53,55,61,63,65 → Rainy;
71,73,75 → Snow; ≥95 → Stormy; default → Sunny. -/
def specConditionTable (code : Int) : String :=
  if code = 1 ∨ code = 2 ∨ code = 3 then "Partly Cloudy"
  else if code = 45 ∨ code = 48 then "Foggy"
  else if code = 51 ∨ code = 53 ∨ code = 55 ∨ code = 61 ∨ code = 63 ∨ code = 65
    then "Rainy"
  else if code = 71 ∨ code = 73 ∨ code = 75 then "Snow"
  else if code ≥ 95 then "Stormy"
  else "Sunny"

/-- 1-based resolved date of day `n` as displayed by the app, dispatching
to the four source definitions `day_1_date` .. `day_4_date`. -/
def resolvedDate : Nat → Date → Date
  | 1, s => day_1_date s
  | 2, s => day_2_date s
  | 3, s => day_3_date s
  | 4, s => day_4_date s
  | _, s => s

/-- Sample Overview weather outcomes: the fetch of every day succeeds with
the end-to-end stub of the spec: daily arrays `temperature_2m_max = [100]`,
`temperature_2m_min = [75]`, `weathercode = [3]`. -/
def respStub : Fin 4 → Response :=
  fun _ => .success ⟨some ⟨some [100], some [75], some [3]⟩⟩

/-- Sample Overview weather outcomes: like `respStub` but day 2
(index 1) suffers a network failure. -/
def respStubDay2Down : Fin 4 → Response :=
  fun i => if i = 1 then .failure else
    .success ⟨some ⟨some [100], some [75], some [3]⟩⟩

/-! ## Theorems -/

/-- **C3.** The weather-code classification is total and deterministic over
all integer codes and agrees with the table of the spec (first match wins):
1,2,3 → Partly Cloudy; 45,48 → Foggy; 51,53,55,61,63,65 → Rainy;
71,73,75 → Snow; every code ≥ 95 → Stormy; every other code → Sunny; in
particular 61 → Rainy, 3 → Partly Cloudy, 100 → Stormy, 0 → Sunny. -/
theorem claim_C3_classification :
    (∀ code : Int, (classify code).1 = specConditionTable code) ∧
    (classify 61).1 = "Rainy" ∧ (classify 3).1 = "Partly Cloudy" ∧
    (classify 100).1 = "Stormy" ∧ (classify 0).1 = "Sunny" := by
  refine ⟨?_, by decide, by decide, by decide, by decide⟩
  intro code
  unfold classify specConditionTable
  split_ifs <;> simp_all

/-- **C10.** The marker-style derivation is total with a silent default:
`"start"` → green/plane, `"stop"` → blue/bed, `"highlight"` → red/camera,
and every other category string (`"waypoint"` or unknown) falls through to
gray/info-sign without error. -/
theorem claim_C10_marker_style :
    markerStyle "start" = ("green", "plane") ∧
    markerStyle "stop" = ("blue", "bed") ∧
    markerStyle "highlight" = ("red", "camera") ∧
    markerStyle "waypoint" = ("gray", "info-sign") ∧
    ∀ t : String, t ≠ "start" → t ≠ "stop" → t ≠ "highlight" →
      markerStyle t = ("gray", "info-sign") := by
  refine ⟨rfl, rfl, rfl, rfl, ?_⟩
  intro t h1 h2 h3
  simp [markerStyle, h1, h2, h3]

/-- Witness for C10: the `"waypoint"` category takes the gray/info-sign
default. -/
theorem claim_C10_witness :
    ("waypoint" : String) ≠ "start" ∧
    markerStyle "waypoint" = ("gray", "info-sign") :=
  ⟨by decide,
   claim_C10_marker_style.2.2.2.2 "waypoint" (by decide) (by decide) (by decide)⟩

/-- **C6.** Selecting `"Day n"` (with `show_all = False`) yields exactly the
one predefined segment for day n, and `show_all = True` (the Overview
selector) yields exactly the four predefined segments in day order 1..4,
for any selector string; the output is a pure function of the static route
table, hence identical on every invocation. -/
theorem claim_C6_route_selection :
    routesFor "Day 1" false = [day1Segment] ∧
    routesFor "Day 2" false = [day2Segment] ∧
    routesFor "Day 3" false = [day3Segment] ∧
    routesFor "Day 4" false = [day4Segment] ∧
    ∀ sel : String, routesFor sel true =
      [day1Segment, day2Segment, day3Segment, day4Segment] := by
  refine ⟨rfl, rfl, rfl, rfl, ?_⟩
  intro sel
  simp [routesFor]

/-- **C5.** For every start date and every day n in 1..4, the resolved date
for day n equals `startDate + (n-1)` days under exact proleptic-Gregorian
calendar arithmetic, including month and year boundaries: from Feb 28 of
non-leap 2023, day 3 is Mar 2; from Feb 28 of leap 2024, day 2 is Feb 29;
from Dec 30 2023, day 4 is Jan 2 2024. -/
theorem claim_C5_resolved_dates :
    (∀ (start : Date) (n : Nat), 1 ≤ n → n ≤ 4 →
      resolvedDate n start = addDays start (n - 1)) ∧
    resolvedDate 3 ⟨2023, 2, 28⟩ = ⟨2023, 3, 2⟩ ∧
    resolvedDate 2 ⟨2024, 2, 28⟩ = ⟨2024, 2, 29⟩ ∧
    resolvedDate 4 ⟨2023, 12, 30⟩ = ⟨2024, 1, 2⟩ := by
  refine ⟨?_, by decide, by decide, by decide⟩
  intro start n h1 h2
  interval_cases n <;> rfl

/-- Witness for C5: day 3 from Feb 28, 2023 is start plus two calendar
days. -/
theorem claim_C5_witness :
    1 ≤ 3 ∧ 3 ≤ 4 ∧
    resolvedDate 3 ⟨2023, 2, 28⟩ = addDays ⟨2023, 2, 28⟩ 2 :=
  ⟨by decide, by decide,
   claim_C5_resolved_dates.1 ⟨2023, 2, 28⟩ 3 (by decide) (by decide)⟩

/-- **C7.** Every weather request is a GET to the daily-forecast endpoint
whose query parameters are exactly: the given latitude and longitude,
`daily` = the three fields max temp / min temp / weathercode,
`temperature_unit = fahrenheit`, `timezone = auto`, and `start_date` and
`end_date` both the same ISO `YYYY-MM-DD` rendering of the requested date
(e.g. `2024-06-01`). -/
theorem claim_C7_request_params :
    (∀ (lat lon : Rat) (date : Date),
      buildRequest lat lon date =
        { method := "GET"
          url := "https://api.open-meteo.com/v1/forecast"
          params :=
            { latitude := lat
              longitude := lon
              daily := ["temperature_2m_max", "temperature_2m_min",
                        "weathercode"]
              temperature_unit := "fahrenheit"
              timezone := "auto"
              start_date := strftimeYMD date
              end_date := strftimeYMD date } }) ∧
    strftimeYMD ⟨2024, 6, 1⟩ = "2024-06-01" ∧
    strftimeYMD ⟨2023, 11, 5⟩ = "2023-11-05" := by
  exact ⟨fun lat lon date => rfl, by decide, by decide⟩

/-- The two degraded messages differ. -/
lemma offline_ne_unavailable :
    ("Weather service offline" : String) ≠
      "Weather unavailable (Date out of range)" := by decide

/-- Two strings whose underlying character lists have different heads are
different. -/
lemma ne_of_data_head {s t : String} (h : s.data.head? ≠ t.data.head?) :
    s ≠ t :=
  fun e => h (congrArg (fun x => x.data.head?) e)

/-- No success-format string of `get_weather` coincides with the
out-of-range message: each of the six icons starts with a character other
than `W`. -/
lemma formatWeather_ne_unavailable (code t_max t_min : Int) :
    formatWeather (classify code).2 (classify code).1 t_max t_min ≠
      "Weather unavailable (Date out of range)" := by
  unfold classify
  split_ifs <;>
    · apply ne_of_data_head
      simp only [formatWeather, String.data_append, List.append_assoc,
        List.cons_append, List.head?_cons]
      decide

/-- **C2.** `get_weather` never raises past its boundary: for every input
and every network/parse outcome it returns exactly one of a success display
string, `"Weather unavailable (Date out of range)"`, or
`"Weather service offline"` (totality of the embedded function is
exception-freedom: the `except` handler absorbs every failure). -/
theorem claim_C2_three_outcomes :
    ∀ (lat lon : Rat) (date : Date) (resp : Response),
      (∃ t_max t_min code, get_weather lat lon date resp =
        formatWeather (classify code).2 (classify code).1 t_max t_min) ∨
      get_weather lat lon date resp = "Weather unavailable (Date out of range)" ∨
      get_weather lat lon date resp = "Weather service offline" := by
  intro lat lon date resp
  rcases resp with _ | ⟨_ | ⟨mx, mn, wc⟩⟩
  · right; right; rfl
  · right; left; rfl
  · rcases mx with _ | ⟨_ | ⟨a, _⟩⟩
    · right; right; rfl
    · right; right; rfl
    · rcases mn with _ | ⟨_ | ⟨b, _⟩⟩
      · right; right; rfl
      · right; right; rfl
      · rcases wc with _ | ⟨_ | ⟨c, _⟩⟩
        · right; right; rfl
        · right; right; rfl
        · left; exact ⟨a, b, c, rfl⟩

/-- **C9.** If the parsed response has a `"daily"` key but one of the three
metric sub-fields is missing or its array is empty, `get_weather` returns
`"Weather service offline"` (the catch-all exception branch), not the
out-of-range message; and the out-of-range message is returned exactly when
the top-level `"daily"` key is absent. -/
theorem claim_C9_unavailable_only_without_daily :
    (∀ (lat lon : Rat) (date : Date) (dj : DailyData),
      dj.temperature_2m_max = none ∨ dj.temperature_2m_max = some [] ∨
        dj.temperature_2m_min = none ∨ dj.temperature_2m_min = some [] ∨
        dj.weathercode = none ∨ dj.weathercode = some [] →
      get_weather lat lon date (.success ⟨some dj⟩) =
        "Weather service offline") ∧
    (∀ (lat lon : Rat) (date : Date) (resp : Response),
      get_weather lat lon date resp =
          "Weather unavailable (Date out of range)" ↔
        resp = .success ⟨none⟩) := by
  constructor
  · intro lat lon date dj h
    rcases dj with ⟨mx, mn, wc⟩
    rcases mx with _ | ⟨_ | ⟨a, _⟩⟩ <;>
      rcases mn with _ | ⟨_ | ⟨b, _⟩⟩ <;>
        rcases wc with _ | ⟨_ | ⟨c, _⟩⟩ <;>
          simp_all <;> rfl
  · intro lat lon date resp
    constructor
    · intro h
      rcases resp with _ | ⟨_ | ⟨mx, mn, wc⟩⟩
      · exact absurd h offline_ne_unavailable
      · rfl
      · rcases mx with _ | ⟨_ | ⟨a, _⟩⟩
        · exact absurd h offline_ne_unavailable
        · exact absurd h offline_ne_unavailable
        · rcases mn with _ | ⟨_ | ⟨b, _⟩⟩
          · exact absurd h offline_ne_unavailable
          · exact absurd h offline_ne_unavailable
          · rcases wc with _ | ⟨_ | ⟨c, _⟩⟩
            · exact absurd h offline_ne_unavailable
            · exact absurd h offline_ne_unavailable
            · exact absurd h (formatWeather_ne_unavailable c a b)
    · intro h
      subst h
      rfl

/-- Witness for C9: a response whose `daily.temperature_2m_max` array is
empty degrades to the offline message. -/
theorem claim_C9_witness :
    (some ([] : List Int) = none ∨ some ([] : List Int) = some [] ∨
      some [(75 : Int)] = none ∨ some [(75 : Int)] = some [] ∨
      some [(3 : Int)] = none ∨ some [(3 : Int)] = some []) ∧
    get_weather 0 0 ⟨2024, 6, 1⟩
        (.success ⟨some ⟨some [], some [75], some [3]⟩⟩) =
      "Weather service offline" :=
  ⟨by decide,
   claim_C9_unavailable_only_without_daily.1 0 0 ⟨2024, 6, 1⟩
     ⟨some [], some [75], some [3]⟩ (by decide)⟩

/-- **C8.** In Overview mode the four per-day weather fetches are
independent and failure-isolated: changing the weather outcome of day k (to
anything, including a no-daily-key response or a network failure) leaves
the rendered block of every other day j — title, resolved date, narrative,
weather line, images — unchanged; and rendering always produces all four
blocks, whatever the outcomes. -/
theorem claim_C8_failure_isolation :
    (∀ (start : Date) (r r' : Fin 4 → Response) (j k : Fin 4),
      j ≠ k → (∀ i, i ≠ k → r i = r' i) →
      overviewBlock start r j = overviewBlock start r' j) ∧
    (∀ (start : Date) (r : Fin 4 → Response),
      (renderOverview start r).length = 4) := by
  constructor
  · intro start r r' j k hjk hagree
    unfold overviewBlock dayWeather
    rw [hagree j hjk]
  · intro start r
    rfl

/-- Witness for C8: with the stub weather of the spec everywhere versus the
same stub but a network failure on day 2, the block of day 1 is unchanged. -/
theorem claim_C8_witness :
    ((0 : Fin 4) ≠ 1) ∧ (∀ i : Fin 4, i ≠ 1 → respStub i = respStubDay2Down i) ∧
    overviewBlock ⟨2024, 6, 1⟩ respStub 0 =
      overviewBlock ⟨2024, 6, 1⟩ respStubDay2Down 0 :=
  ⟨by decide, by decide,
   claim_C8_failure_isolation.1 ⟨2024, 6, 1⟩ respStub respStubDay2Down 0 1
     (by decide) (by decide)⟩

/-- **C1** (code evaluation at the failing configuration). The stop name
`"Hoover Bridge"` appears in the predefined Day 1 segment but is not a key
of `LOCATIONS` (the registry has `"Bypass Bridge"` instead), so the route
composer raises `KeyError "Hoover Bridge"` at compose time — a fatal
configuration error rather than a silent skip — both for the Day 1 selector
and for the Overview selector. The assertion of the claim that every stop name
of the four predefined segments is a registered key is therefore false on
this code. -/
theorem claim_C1_eval :
    lookupLoc "Hoover Bridge" = none ∧
    "Hoover Bridge" ∈ day1Segment.points ∧
    create_map "Day 1" false = Except.error "Hoover Bridge" ∧
    create_map "Overview" true = Except.error "Hoover Bridge" ∧
    (create_map "Day 2" false).isOk = true ∧
    (create_map "Day 3" false).isOk = true ∧
    (create_map "Day 4" false).isOk = true := by
  exact ⟨rfl, by decide, rfl, rfl, rfl, rfl, rfl⟩

/-- **C4** (code evaluation at the stub response of the spec). For the response
whose daily arrays are `temperature_2m_max [100]`, `temperature_2m_min [75]`
and `weathercode [3]`, `get_weather` returns
`"qw⛅ Partly Cloudy | H: 100°F L: 75°F"` — the stray `"qw"` of the
stray `"qw"` in the source icon literal makes it differ from the expected
`"⛅ Partly Cloudy | H: 100°F L: 75°F"`; the surrounding
`"<icon> <condition> | H: <max>°F L: <min>°F"` shape itself holds for
every successful fetch. -/
theorem claim_C4_eval :
    get_weather 36.1147 (-115.1728) ⟨2024, 6, 1⟩
        (.success ⟨some ⟨some [100], some [75], some [3]⟩⟩) =
      "qw⛅ Partly Cloudy | H: 100°F L: 75°F" ∧
    ("qw⛅ Partly Cloudy | H: 100°F L: 75°F" : String) ≠
      "⛅ Partly Cloudy | H: 100°F L: 75°F" ∧
    get_weather 36.1147 (-115.1728) ⟨2024, 6, 1⟩
        (.success ⟨some ⟨some [100], some [75], some [3]⟩⟩) =
      formatWeather "qw⛅" "Partly Cloudy" 100 75 := by
  exact ⟨rfl, by decide, rfl⟩

end Tripplanner

